import Mathlib

/-!
Shallow embedding of `src/api.py` (repository APIDB): a guarded database
façade (`DatabaseAPI`) over a SQL database, plus a timing decorator
`measure_execution_time`.

Modelling choices:
- A table's contents is a `DataFrame`: an ordered list of column names and an
  ordered list of rows (cell values as strings, as in the repository's demo).
- The live database is an association list from table name to contents
  (`DB`); `tableNames` embeds `inspect(engine).get_table_names()`.
- Each façade method is a pure function of the database state passed to that
  call; it returns the new state together with the list of messages the
  Python code `print`s on that call.
- Driver-level failures that `delete_from_table` can hit (a bind parameter
  named in the query but absent from the `conditions` dict, a column named
  in the WHERE clause that the table does not have) are an `Except.error`
  carrying a `PyErr`.
- Wall-clock time: the two `time.time()` readings taken by the decorator are
  passed as explicit natural-number parameters (whole seconds; `time.gmtime`
  truncates fractional seconds).
-/

set_option autoImplicit false

namespace APIDB

/-- A pandas DataFrame as used by the repository: ordered column names and
ordered rows of string cells. -/
structure DataFrame where
  cols : List String
  rows : List (List String)
deriving Repr, DecidableEq

/-- The live database: an association list from table name to contents.
Table names are unique in a real schema; lookups take the first match. -/
abbrev DB := List (String × DataFrame)

/-- Embeds `inspect(self.engine).get_table_names()`: the names of the tables
currently in the live schema. -/
def tableNames (db : DB) : List String :=
  db.map Prod.fst

/-- Contents of the named table, if present (first match). -/
def getTable : DB → String → Option DataFrame
  | [], _ => none
  | (m, t) :: db, n => if m = n then some t else getTable db n

/-- Rewrite the contents of the named table in place, leaving every other
table (and the schema's name list) unchanged. -/
def updateTable : DB → String → (DataFrame → DataFrame) → DB
  | [], _, _ => []
  | (m, t) :: db, n, f => (m, if m = n then f t else t) :: updateTable db n f

/-- First value bound to key `c` in a Python keyword-argument dict,
embedded as an association list. -/
def lookupCond : List (String × String) → String → Option String
  | [], _ => none
  | (k, v) :: kvs, c => if k = c then some v else lookupCond kvs c

/-- The cell of row `r` under column `c`, given the table's column list
(positional: the i-th cell belongs to the i-th column). -/
def cell : List String → List String → String → Option String
  | [], _, _ => none
  | _ :: _, [], _ => none
  | c0 :: cs, v :: vs, c => if c0 = c then some v else cell cs vs c

/-- Driver/driver-wrapper failures surfaced by `conn.execute`. -/
inductive PyErr where
  /-- SQLAlchemy: a bind parameter named in the statement has no value in
  the parameter dictionary. Raised before any SQL reaches the database. -/
  | missingBindParam (c : String)
  /-- PostgreSQL: the WHERE clause names a column the table does not have. -/
  | undefinedColumn (c : String)
deriving Repr, DecidableEq

/-! ## Messages printed by `api.py` (verbatim) -/

def createExistsMsg (n : String) : String :=
  "Таблица " ++ n ++ " уже существует. Нельзя создать таблицу."

def createOkMsg (n : String) : String :=
  "Таблица " ++ n ++ " успешно создана."

def insertAbsentMsg (n : String) : String :=
  "Таблица " ++ n ++ " не существует. Данные не могут быть добавлены."

def insertOkMsg (n : String) : String :=
  "Данные успешно добавлены в таблицу " ++ n ++ "."

def truncateAbsentMsg (n : String) : String :=
  "Таблица " ++ n ++ " не существует. Нельзя выполнить очистку."

def truncateOkMsg (n : String) : String :=
  "Таблица " ++ n ++ " успешно очищена."

def readAbsentMsg (n : String) : String :=
  "Таблица " ++ n ++ " не существует. Невозможно прочитать данные."

def deleteAbsentMsg (n : String) : String :=
  "Таблица " ++ n ++ " не существует. Невозможно удалить данные."

def deleteNothingMsg : String :=
  "Не указаны столбцы и условия для удаления."

def deleteOkMsg (n : String) : String :=
  "Данные в таблице " ++ n ++ " успешно удалены."

/-! ## Timing decorator (`measure_execution_time`, api.py lines 13-33) -/

/-- Embeds `time.gmtime(d).tm_hour` for a duration of `d` whole seconds: hours
within the current day since the epoch. -/
def gmtimeHour (d : Nat) : Nat := d % 86400 / 3600

/-- Embeds `time.gmtime(d).tm_min`. -/
def gmtimeMin (d : Nat) : Nat := d % 86400 % 3600 / 60

/-- Embeds `time.gmtime(d).tm_sec`. -/
def gmtimeSec (d : Nat) : Nat := d % 86400 % 60

/-- Two-digit zero padding, as `%H`, `%M`, `%S` print their fields. -/
def pad2 (n : Nat) : String :=
  if n < 10 then "0" ++ toString n else toString n

/-- Embeds `time.strftime("%H-%M-%S", time.gmtime(d))`. -/
def strftimeHMS (d : Nat) : String :=
  pad2 (gmtimeHour d) ++ "-" ++ pad2 (gmtimeMin d) ++ "-" ++ pad2 (gmtimeSec d)

/-- The line printed by the decorator for an elapsed duration of `d`
seconds. -/
def timeMsg (d : Nat) : String :=
  "Время выполнения: " ++ strftimeHMS d

/-- Embeds `measure_execution_time` (api.py lines 13-33). The wrapped Python
callable is embedded as a function from its argument tuple to the pair of
(its own printed output, its result-or-raised-exception). `startT` and
`endT` are the values the two `time.time()` calls read; when the wrapped
call raises, control leaves `wrapper` at `result = func(...)`, so the end
reading, the duration, the formatting and the print never happen. -/
def measure_execution_time {α β ε : Type} (func : α → List String × Except ε β)
    (startT endT : Nat) : α → List String × Except ε β :=
  fun a =>
    match func a with
    | (out, Except.error e) => (out, Except.error e)
    | (out, Except.ok b) => (out ++ [timeMsg (endT - startT)], Except.ok b)

/-! ## Façade operations (`DatabaseAPI`, api.py lines 36-193)

Each method takes the current database state and returns the new state with
the list of lines it prints (plus, for `read_sql`, its return value, and for
`delete_from_table`, a possible driver error). -/

/-- Embeds `DatabaseAPI.create_table` (api.py lines 66-81): if the table already
exists, report and do nothing; otherwise `dataframe.to_sql(table_name,
engine, index=False)` creates the table from the dataframe's column layout
and writes all its rows, adding no index column. -/
def create_table (db : DB) (table_name : String) (dataframe : DataFrame) :
    DB × List String :=
  if table_name ∈ tableNames db then
    (db, [createExistsMsg table_name])
  else
    (db ++ [(table_name, dataframe)], [createOkMsg table_name])

/-- Embeds `DatabaseAPI.insert_sql` (api.py lines 83-109): if the table is absent,
report and do nothing; else `to_sql` with `if_exists="append"` appends the
dataframe's rows after the existing ones, `if_exists="replace"` overwrites
the whole table with the dataframe, and any other `mode` falls through both
`if`/`elif` branches: nothing is written and nothing is printed. -/
def insert_sql (db : DB) (table_name : String) (dataframe : DataFrame)
    (mode : String) : DB × List String :=
  if table_name ∉ tableNames db then
    (db, [insertAbsentMsg table_name])
  else if mode = "append" then
    (updateTable db table_name
      (fun t => ⟨t.cols, t.rows ++ dataframe.rows⟩), [insertOkMsg table_name])
  else if mode = "replace" then
    (updateTable db table_name (fun _ => dataframe), [insertOkMsg table_name])
  else
    (db, [])

/-- Embeds `DatabaseAPI.truncate_table` (api.py lines 111-128): if the table is
absent, report and do nothing; else execute `TRUNCATE TABLE name` and
commit, which removes every row and keeps the table's schema. -/
def truncate_table (db : DB) (table_name : String) : DB × List String :=
  if table_name ∉ tableNames db then
    (db, [truncateAbsentMsg table_name])
  else
    (updateTable db table_name (fun t => ⟨t.cols, []⟩),
     [truncateOkMsg table_name])

/-- Embeds `DatabaseAPI.read_sql` (api.py lines 130-149): if the table is absent,
report and return `None`; else `SELECT * FROM name` read into a dataframe
(columns and rows as stored). -/
def read_sql (db : DB) (table_name : String) : Option DataFrame × List String :=
  if table_name ∉ tableNames db then
    (none, [readAbsentMsg table_name])
  else
    (getTable db table_name, [])

/-- Holds (as `true`) when row `r` (under column layout `cols`) satisfies the
conjunctive WHERE clause `c = :c AND ...` over `columns`, each parameter
`:c` bound from `conditions`. -/
def rowMatches (cols : List String) (r : List String) (columns : List String)
    (conditions : List (String × String)) : Bool :=
  columns.all (fun c => decide (cell cols r c = lookupCond conditions c))

/-- Embeds `DatabaseAPI.delete_from_table` (api.py lines 151-176): if the table is
absent, report and do nothing; if `columns` or `conditions` is empty, print
the "nothing specified" line and do nothing; otherwise build
`DELETE FROM name WHERE c1 = :c1 AND c2 = :c2 ...` over the `columns` list
and execute it with the `conditions` dict as parameters. Execution raises if
a named column has no value in `conditions` (SQLAlchemy missing bind
parameter, raised client-side) or is not a column of the table (PostgreSQL
undefined column); extra keys in `conditions` are ignored. On success the
rows satisfying every equality are deleted and the transaction commits. -/
def delete_from_table (db : DB) (table_name : String) (columns : List String)
    (conditions : List (String × String)) : Except PyErr (DB × List String) :=
  if table_name ∉ tableNames db then
    Except.ok (db, [deleteAbsentMsg table_name])
  else if columns.isEmpty || conditions.isEmpty then
    Except.ok (db, [deleteNothingMsg])
  else
    match columns.find? (fun c => (lookupCond conditions c).isNone) with
    | some c => Except.error (PyErr.missingBindParam c)
    | none =>
      match columns.find?
          (fun c => !(decide (c ∈ (getTable db table_name).elim [] DataFrame.cols))) with
      | some c => Except.error (PyErr.undefinedColumn c)
      | none =>
        Except.ok
          (updateTable db table_name
            (fun t => ⟨t.cols,
              t.rows.filter (fun r => !rowMatches t.cols r columns conditions)⟩),
           [deleteOkMsg table_name])

/-- The SQL text `delete_from_table` builds (api.py lines 170-173). -/
def deleteQuery (table_name : String) (columns : List String) : String :=
  "DELETE FROM " ++ table_name ++ " WHERE "
    ++ String.intercalate " AND " (columns.map (fun c => c ++ " = :" ++ c))

/-! ## Helper lemmas about the schema model -/

theorem getTable_isSome_iff_mem (db : DB) (n : String) :
    (getTable db n).isSome ↔ n ∈ tableNames db := by
  induction db with
  | nil => simp [getTable, tableNames]
  | cons p db ih =>
    obtain ⟨m, t⟩ := p
    by_cases h : m = n
    · subst h; simp [getTable, tableNames]
    · simp [getTable, tableNames, h, ih, Ne.symm h]

theorem getTable_eq_none_of_not_mem {db : DB} {n : String}
    (h : n ∉ tableNames db) : getTable db n = none := by
  have h2 := (getTable_isSome_iff_mem db n).not.mpr h
  exact Option.not_isSome_iff_eq_none.mp h2

theorem mem_of_getTable_eq_some {db : DB} {n : String} {t : DataFrame}
    (h : getTable db n = some t) : n ∈ tableNames db := by
  have : (getTable db n).isSome := by simp [h]
  exact (getTable_isSome_iff_mem db n).mp this

theorem tableNames_updateTable (db : DB) (n : String)
    (f : DataFrame → DataFrame) :
    tableNames (updateTable db n f) = tableNames db := by
  induction db with
  | nil => rfl
  | cons p db ih =>
    obtain ⟨m, t⟩ := p
    simpa [updateTable, tableNames] using ih

theorem getTable_updateTable_self (db : DB) (n : String)
    (f : DataFrame → DataFrame) :
    getTable (updateTable db n f) n = (getTable db n).map f := by
  induction db with
  | nil => rfl
  | cons p db ih =>
    obtain ⟨m, t⟩ := p
    by_cases h : m = n
    · subst h; simp [updateTable, getTable]
    · simpa [updateTable, getTable, h] using ih

theorem getTable_append_of_not_mem {db : DB} {n : String} (t : DataFrame)
    (h : n ∉ tableNames db) : getTable (db ++ [(n, t)]) n = some t := by
  induction db with
  | nil => simp [getTable]
  | cons p db ih =>
    simp [tableNames] at h
    simp [getTable, Ne.symm h.1]
    exact ih (by simpa [tableNames] using h.2)

theorem mem_tableNames_append (db : DB) (n : String) (t : DataFrame) :
    n ∈ tableNames (db ++ [(n, t)]) := by
  simp [tableNames]

/-- The demo dataset of `api_example_demo.py`. -/
def dfDemo : DataFrame :=
  ⟨["column1", "column2"],
   [["value1", "value1"], ["value2", "value2"], ["value3", "value3"]]⟩

/-! ## Claims -/

/-- C1: for every table name not present in the live schema, `insert_sql`,
`truncate_table` and `delete_from_table` perform no write or delete (the
state is returned unchanged, only the absent-table message is printed), and
`read_sql` prints the message and returns `None` instead of raising. -/
theorem absent_table_guards (db : DB) (n : String) (df : DataFrame)
    (mode : String) (cols : List String) (conds : List (String × String))
    (h : n ∉ tableNames db) :
    insert_sql db n df mode = (db, [insertAbsentMsg n]) ∧
    truncate_table db n = (db, [truncateAbsentMsg n]) ∧
    read_sql db n = (none, [readAbsentMsg n]) ∧
    delete_from_table db n cols conds = Except.ok (db, [deleteAbsentMsg n]) := by
  refine ⟨?_, ?_, ?_, ?_⟩ <;>
    simp [insert_sql, truncate_table, read_sql, delete_from_table, h]

/-- Witness for C1: the guards observed on the empty schema. -/
theorem absent_table_guards_witness :
    ("missing" ∉ tableNames ([] : DB)) ∧
    (insert_sql [] "missing" dfDemo "append"
        = ([], [insertAbsentMsg "missing"]) ∧
      truncate_table [] "missing" = ([], [truncateAbsentMsg "missing"]) ∧
      read_sql [] "missing" = (none, [readAbsentMsg "missing"]) ∧
      delete_from_table [] "missing" ["column1"] [("column1", "value1")]
        = Except.ok ([], [deleteAbsentMsg "missing"])) :=
  ⟨by decide,
   absent_table_guards [] "missing" dfDemo "append" ["column1"]
     [("column1", "value1")] (by decide)⟩

/-- C3: creating a fresh table from a dataset and immediately reading it
back returns exactly the dataset's columns and rows, in order, with no
extra index or primary-key column. -/
theorem create_then_read_roundtrip (db : DB) (n : String) (df : DataFrame)
    (h : n ∉ tableNames db) :
    read_sql (create_table db n df).1 n = (some df, []) := by
  have hc : (create_table db n df).1 = db ++ [(n, df)] := by
    simp [create_table, h]
  rw [hc]
  have hm := mem_tableNames_append db n df
  simp [read_sql, hm, getTable_append_of_not_mem df h]

/-- Witness for C3: the demo's three-row dataset and a zero-row dataset
both round-trip through `create_table` and `read_sql`. -/
theorem create_then_read_roundtrip_witness :
    read_sql (create_table [] "sample_table" dfDemo).1 "sample_table"
      = (some dfDemo, []) ∧
    read_sql (create_table [] "empty" ⟨["a", "b"], []⟩).1 "empty"
      = (some ⟨["a", "b"], []⟩, []) :=
  ⟨create_then_read_roundtrip [] "sample_table" dfDemo (by decide),
   create_then_read_roundtrip [] "empty" ⟨["a", "b"], []⟩ (by decide)⟩

/-- C4: on an existing table, `insert_sql` with a mode outside
the set of append and replace writes nothing, raises nothing and prints nothing:
it falls through both branches and returns normally. -/
theorem insert_unknown_mode_noop (db : DB) (n : String) (df : DataFrame)
    (mode : String) (h1 : n ∈ tableNames db) (h2 : mode ≠ "append")
    (h3 : mode ≠ "replace") :
    insert_sql db n df mode = (db, []) := by
  simp [insert_sql, h1, h2, h3]

/-- Witness for C4: mode "upsert" on a one-table schema. -/
theorem insert_unknown_mode_noop_witness :
    insert_sql [("t", dfDemo)] "t" dfDemo "upsert" = ([("t", dfDemo)], []) :=
  insert_unknown_mode_noop [("t", dfDemo)] "t" dfDemo "upsert" (by decide)
    (by decide) (by decide)

/-- C5: on an existing table, `delete_from_table` with empty `columns` or
empty `conditions` prints the "nothing specified" message, executes no
DELETE, and leaves the database state unchanged. -/
theorem delete_nothing_specified (db : DB) (n : String) (cols : List String)
    (conds : List (String × String)) (h1 : n ∈ tableNames db)
    (h2 : cols = [] ∨ conds = []) :
    delete_from_table db n cols conds = Except.ok (db, [deleteNothingMsg]) := by
  rcases h2 with h2 | h2 <;> subst h2 <;> simp [delete_from_table, h1]

/-- Witness for C5: empty conditions on a one-table schema. -/
theorem delete_nothing_specified_witness :
    delete_from_table [("t", dfDemo)] "t" ["column1"] []
      = Except.ok ([("t", dfDemo)], [deleteNothingMsg]) :=
  delete_nothing_specified [("t", dfDemo)] "t" ["column1"] [] (by decide)
    (Or.inr rfl)

/-- C7: on an existing table, `truncate_table` removes all rows and keeps
the schema: a following `read_sql` succeeds and returns the table's columns
with zero rows, the table is still listed in the schema, and a following
`insert_sql` with mode "append" succeeds, leaving the inserted rows. -/
theorem truncate_preserves_schema (db : DB) (n : String) (t df : DataFrame)
    (h : getTable db n = some t) :
    read_sql (truncate_table db n).1 n = (some ⟨t.cols, []⟩, []) ∧
    n ∈ tableNames (truncate_table db n).1 ∧
    (insert_sql (truncate_table db n).1 n df "append").2 = [insertOkMsg n] ∧
    getTable (insert_sql (truncate_table db n).1 n df "append").1 n
      = some ⟨t.cols, df.rows⟩ := by
  have hm := mem_of_getTable_eq_some h
  have ht1 : (truncate_table db n).1 = updateTable db n (fun u => ⟨u.cols, []⟩) := by
    simp [truncate_table, hm]
  have hm1 : n ∈ tableNames (truncate_table db n).1 := by
    rw [ht1, tableNames_updateTable]; exact hm
  have hg1 : getTable (truncate_table db n).1 n = some ⟨t.cols, []⟩ := by
    rw [ht1, getTable_updateTable_self, h]; rfl
  refine ⟨by simp [read_sql, hm1, hg1], hm1, ?_, ?_⟩
  · simp [insert_sql, hm1]
  · have hi : (insert_sql (truncate_table db n).1 n df "append").1
        = updateTable (truncate_table db n).1 n
            (fun u => ⟨u.cols, u.rows ++ df.rows⟩) := by
      simp [insert_sql, hm1]
    rw [hi, getTable_updateTable_self, hg1]; rfl

/-- Witness for C7: truncating the demo table, then reading and appending. -/
theorem truncate_preserves_schema_witness :
    read_sql (truncate_table [("t", dfDemo)] "t").1 "t"
      = (some ⟨["column1", "column2"], []⟩, []) ∧
    "t" ∈ tableNames (truncate_table [("t", dfDemo)] "t").1 ∧
    (insert_sql (truncate_table [("t", dfDemo)] "t").1 "t" dfDemo "append").2
      = [insertOkMsg "t"] ∧
    getTable (insert_sql (truncate_table [("t", dfDemo)] "t").1 "t" dfDemo
        "append").1 "t"
      = some ⟨["column1", "column2"], dfDemo.rows⟩ :=
  truncate_preserves_schema [("t", dfDemo)] "t" dfDemo dfDemo (by decide)

/-- C8: every façade operation queries the live schema's table names on the
call itself, and the branch it takes is determined solely by that query on
the state passed to that call: each operation's full observable outcome is
fixed, in both the present and the absent case, by `n ∈ tableNames db` for
the current `db`; and a schema change made by one call is seen by the very
next call's query (nothing is cached across calls). -/
theorem guards_use_live_schema (db : DB) (n : String) (df : DataFrame)
    (mode : String) (cols : List String) (conds : List (String × String)) :
    (n ∈ tableNames db → create_table db n df = (db, [createExistsMsg n])) ∧
    (n ∉ tableNames db →
      create_table db n df = (db ++ [(n, df)], [createOkMsg n])) ∧
    (n ∉ tableNames db → insert_sql db n df mode = (db, [insertAbsentMsg n])) ∧
    (n ∉ tableNames db → truncate_table db n = (db, [truncateAbsentMsg n])) ∧
    (n ∈ tableNames db →
      truncate_table db n
        = (updateTable db n (fun u => ⟨u.cols, []⟩), [truncateOkMsg n])) ∧
    (n ∉ tableNames db → read_sql db n = (none, [readAbsentMsg n])) ∧
    (n ∈ tableNames db → read_sql db n = (getTable db n, [])) ∧
    (n ∉ tableNames db →
      delete_from_table db n cols conds = Except.ok (db, [deleteAbsentMsg n])) ∧
    (n ∉ tableNames db → n ∈ tableNames (create_table db n df).1) := by
  refine ⟨fun h => by simp [create_table, h], fun h => by simp [create_table, h],
    fun h => by simp [insert_sql, h], fun h => by simp [truncate_table, h],
    fun h => by simp [truncate_table, h], fun h => by simp [read_sql, h],
    fun h => by simp [read_sql, h], fun h => by simp [delete_from_table, h],
    fun h => ?_⟩
  have hc : (create_table db n df).1 = db ++ [(n, df)] := by
    simp [create_table, h]
  rw [hc]
  exact mem_tableNames_append db n df

/-- C6: the wrapper produced by `measure_execution_time` invokes the
wrapped operation with the given arguments exactly once (its side-effect
trace appears exactly once in the wrapper's output), returns its result
unmodified (and propagates its failure unmodified), and on success emits
exactly one formatted elapsed-duration line after the operation's own
output. -/
theorem measure_execution_time_transparent {α β ε : Type}
    (func : α → List String × Except ε β) (startT endT : Nat) (a : α) :
    measure_execution_time func startT endT a
      = ((func a).1
          ++ (match (func a).2 with
              | Except.ok _ => [timeMsg (endT - startT)]
              | Except.error _ => ([] : List String)),
         (func a).2) := by
  rcases h : func a with ⟨out, r⟩
  cases r <;> simp [measure_execution_time, h]

/-- C9: the decorator's formatter (`strftime("%H-%M-%S", gmtime(d))`) is
fixed-width hours-minutes-seconds: the hours field it prints is
`d / 3600 % 24`, so durations of 24 hours or more wrap around in the hours
field (adding a full day leaves the printed string unchanged). -/
theorem strftime_hours_wrap (d : Nat) :
    gmtimeHour d = d / 3600 % 24 ∧
    strftimeHMS d
      = pad2 (d / 3600 % 24) ++ "-" ++ pad2 (gmtimeMin d) ++ "-"
          ++ pad2 (gmtimeSec d) ∧
    strftimeHMS (d + 86400) = strftimeHMS d := by
  have hh : gmtimeHour d = d / 3600 % 24 := by
    unfold gmtimeHour; omega
  have h1 : (d + 86400) % 86400 = d % 86400 := by omega
  refine ⟨hh, by rw [strftimeHMS, hh], ?_⟩
  simp [strftimeHMS, gmtimeHour, gmtimeMin, gmtimeSec, h1]

/-- C10: when the wrapped operation raises, the wrapper propagates the
exception unmodified and emits no timing line: control leaves the wrapper
at the call itself, so the end reading, duration, formatting and print all
never happen. -/
theorem measure_execution_time_propagates {α β ε : Type}
    (func : α → List String × Except ε β) (startT endT : Nat) (a : α)
    (err : ε) (h : (func a).2 = Except.error err) :
    measure_execution_time func startT endT a
      = ((func a).1, Except.error err) := by
  rcases hf : func a with ⟨out, r⟩
  rw [hf] at h
  simp only at h
  subst h
  simp [measure_execution_time, hf]

/-- Witness for C10: a concrete failing operation is propagated with its
own output and no timing line. -/
theorem measure_execution_time_propagates_witness :
    measure_execution_time
      (fun (_ : Nat) => ((["boom"], Except.error 7) : List String × Except Nat Nat))
      5 9 0
      = (["boom"], Except.error 7) :=
  measure_execution_time_propagates
    (fun (_ : Nat) => ((["boom"], Except.error 7) : List String × Except Nat Nat))
    5 9 0 7 rfl

/-- C2 counterexample: on an existing table, with non-empty `columns` and
non-empty `conditions`, a named column that has no entry in `conditions` is
NOT ignored: the built query names it as a bind parameter, so execution
raises a missing-bind-parameter error and no DELETE is executed or
committed, contrary to the claim. -/
theorem delete_ignored_column_counterexample :
    delete_from_table [("t", ⟨["b"], [["x"]]⟩)] "t" ["a"] [("b", "v")]
      = Except.error (PyErr.missingBindParam "a") := by
  rfl

/-- C2 (amended): on an existing table, with non-empty `columns` and
non-empty `conditions`, the parameterized DELETE's WHERE clause is the
conjunction of `column = :column` over ALL the named columns; when every
named column has a value in `conditions` and is a column of the table, the
DELETE executes and commits, removing exactly the rows on which every named
column equals its condition value; when some named column has no value in
`conditions`, execution raises a missing-bind-parameter error instead. -/
theorem delete_conjunctive_filter (db : DB) (n : String) (t : DataFrame)
    (columns : List String) (conditions : List (String × String))
    (ht : getTable db n = some t) (hc : columns ≠ []) (hk : conditions ≠ []) :
    deleteQuery n columns
      = "DELETE FROM " ++ n ++ " WHERE "
          ++ String.intercalate " AND "
              (columns.map (fun c => c ++ " = :" ++ c)) ∧
    ((∀ c ∈ columns, (lookupCond conditions c).isSome ∧ c ∈ t.cols) →
      delete_from_table db n columns conditions
        = Except.ok
            (updateTable db n (fun u => ⟨u.cols,
              u.rows.filter (fun r => !rowMatches u.cols r columns conditions)⟩),
             [deleteOkMsg n])) ∧
    ((∃ c ∈ columns, lookupCond conditions c = none) →
      ∃ c ∈ columns, delete_from_table db n columns conditions
        = Except.error (PyErr.missingBindParam c)) := by
  have hm := mem_of_getTable_eq_some ht
  have hce : columns.isEmpty = false := by
    cases columns with
    | nil => exact absurd rfl hc
    | cons a l => rfl
  have hke : conditions.isEmpty = false := by
    cases conditions with
    | nil => exact absurd rfl hk
    | cons a l => rfl
  refine ⟨rfl, ?_, ?_⟩
  · intro hall
    have h1 : columns.find? (fun c => (lookupCond conditions c).isNone) = none := by
      rw [List.find?_eq_none]
      intro c hcm
      have hs := (hall c hcm).1
      simp only [Option.isNone_iff_eq_none]
      exact Option.isSome_iff_ne_none.mp hs
    have h2 : columns.find?
        (fun c => !(decide (c ∈ (getTable db n).elim [] DataFrame.cols))) = none := by
      rw [List.find?_eq_none]
      intro c hcm
      simp [ht]
      exact (hall c hcm).2
    simp only [delete_from_table, hm, hce, hke]
    simp only [h1, h2]
    simp
  · rintro ⟨c, hcm, hcn⟩
    have hs : (columns.find? (fun c => (lookupCond conditions c).isNone)).isSome := by
      rw [List.find?_isSome]
      exact ⟨c, hcm, by simp [hcn]⟩
    obtain ⟨c0, hc0⟩ := Option.isSome_iff_exists.mp hs
    refine ⟨c0, List.mem_of_find?_eq_some hc0, ?_⟩
    simp only [delete_from_table, hm, hce, hke]
    simp only [hc0]
    simp

/-- Witness for C2 (amended): the spec's concrete scenario — three demo
rows, `delete(table, ["column1"], column1="value1")` leaves exactly the two
rows whose `column1` is not `"value1"`. -/
theorem delete_conjunctive_filter_witness :
    delete_from_table [("sample_table", dfDemo)] "sample_table" ["column1"]
        [("column1", "value1")]
      = Except.ok
          ([("sample_table", ⟨["column1", "column2"],
              [["value2", "value2"], ["value3", "value3"]]⟩)],
           [deleteOkMsg "sample_table"]) := by
  have h := (delete_conjunctive_filter [("sample_table", dfDemo)]
    "sample_table" dfDemo ["column1"] [("column1", "value1")]
    (by decide) (by decide) (by decide)).2.1 (by decide)
  rw [h]
  rfl

/-- Witness for C8: the present-table branch observed on a one-table
schema, and the absent-table branch observed on the empty schema. -/
theorem guards_use_live_schema_witness :
    create_table [("t", dfDemo)] "t" dfDemo
      = ([("t", dfDemo)], [createExistsMsg "t"]) ∧
    read_sql [] "t" = (none, [readAbsentMsg "t"]) ∧
    "t" ∈ tableNames (create_table [] "t" dfDemo).1 := by
  have h1 := guards_use_live_schema [("t", dfDemo)] "t" dfDemo "append" [] []
  have h2 := guards_use_live_schema [] "t" dfDemo "append" [] []
  exact ⟨h1.1 (by decide), h2.2.2.2.2.2.1 (by decide),
    h2.2.2.2.2.2.2.2.2 (by decide)⟩

end APIDB
